import Mathlib

/-!
# Tenancy fixture lifecycle of `helpers/context.go`

A shallow embedding of `ConfiguredContext` (construction, `Setup`,
`SetRunawayQuota`, `Teardown`, accessors) as state transformers over

* the receiver object,
* the remote control plane reached through the command runner, and
* the chronological record of the `cf` commands that were started.

The clock (`time.Now`) and the ginkgo parallel node number are explicit inputs
of `NewContext`.
-/

namespace Helpers

/-! ## Data model -/

/-- A `time.Duration`: a signed count of nanoseconds. -/
abbrev Duration := Int

/-- The constant `time.Minute`. -/
def Minute : Duration := 60000000000

/-- The constant `RUNAWAY_QUOTA_MEM_LIMIT` (context.go, line 15). -/
def RUNAWAY_QUOTA_MEM_LIMIT : String := "99999G"

/-- The fields and the one method of `Config` that context.go reads. The struct is
declared next to context.go, not in it; `ScaledTimeout` is its method, kept abstract. -/
structure Config where
  ApiEndpoint : String
  AdminUser : String
  AdminPassword : String
  SkipSSLValidation : Bool
  UseExistingUser : Bool
  ExistingUser : String
  ExistingUserPassword : String
  UseExistingOrgAndSpace : Bool
  ExistingOrg : String
  ExistingSpace : String
  ExistingQuota : String
  ShouldKeepUser : Bool
  PersistentAppOrg : String
  PersistentAppSpace : String
  PersistentAppQuotaName : String
  ScaledTimeout : Duration → Duration

/-- The credentials bundle built by `cf.NewUserContext`, one field per argument, in
argument order. -/
structure UserContext where
  ApiUrl : String
  Username : String
  Password : String
  Org : String
  Space : String
  SkipSSLValidation : Bool
deriving DecidableEq, Repr

/-- The struct `ConfiguredContext` (context.go, lines 17-33). -/
structure ConfiguredContext where
  config : Config
  shortTimeout : Duration
  longTimeout : Duration
  organizationName : String
  spaceName : String
  quotaDefinitionName : String
  regularUserUsername : String
  regularUserPassword : String
  isPersistentApp : Bool
  isPersistentOrgAndSpace : Bool

/-- The struct `quotaDefinition` (context.go, lines 35-43). -/
structure quotaDefinition where
  Name : String
  TotalServices : String
  TotalRoutes : String
  MemoryLimit : String
  NonBasicServicesAllowed : Bool
deriving DecidableEq, Repr

/-! ## Naming and construction -/

/-- The verb `%d` of `fmt.Sprintf` on an `int`: decimal, a minus sign when negative. -/
def formatInt : Int → String
  | Int.ofNat m => Nat.repr m
  | Int.negSucc m => "-" ++ Nat.repr (m + 1)

/-- The call `fmt.Sprintf("CATS-<KIND>-%d-%s", node, timeTag)`; `kind` is the literal
text before the first verb. -/
def Sprintf (kind : String) (node : Int) (timeTag : String) : String :=
  kind ++ formatInt node ++ "-" ++ timeTag

/-- `NewContext` (context.go, lines 45-85). `node` is
`ginkgoconfig.GinkgoConfig.ParallelNode` and `timeTag` is the formatted `time.Now()`. -/
def NewContext (config : Config) (node : Int) (timeTag : String) : ConfiguredContext :=
  let regUser := Sprintf "CATS-USER-" node timeTag
  let regUserPass := "meow"
  let orgName := Sprintf "CATS-ORG-" node timeTag
  let spaceName := Sprintf "CATS-SPACE-" node timeTag
  let quota := Sprintf "CATS-QUOTA-" node timeTag
  let persistOrgAndSpace := false
  let regUser := if config.UseExistingUser then config.ExistingUser else regUser
  let regUserPass := if config.UseExistingUser then config.ExistingUserPassword else regUserPass
  let orgName := if config.UseExistingOrgAndSpace then config.ExistingOrg else orgName
  let spaceName := if config.UseExistingOrgAndSpace then config.ExistingSpace else spaceName
  let quota := if config.UseExistingOrgAndSpace then config.ExistingQuota else quota
  let persistOrgAndSpace := if config.UseExistingOrgAndSpace then true else persistOrgAndSpace
  { config := config
    shortTimeout := config.ScaledTimeout (1 * Minute)
    longTimeout := config.ScaledTimeout (5 * Minute)
    quotaDefinitionName := quota
    organizationName := orgName
    spaceName := spaceName
    regularUserUsername := regUser
    regularUserPassword := regUserPass
    isPersistentApp := false
    isPersistentOrgAndSpace := persistOrgAndSpace }

/-- `NewPersistentAppContext` (context.go, lines 87-96). -/
def NewPersistentAppContext (config : Config) (node : Int) (timeTag : String) :
    ConfiguredContext :=
  let baseContext := NewContext config node timeTag
  let baseContext := { baseContext with quotaDefinitionName := config.PersistentAppQuotaName }
  let baseContext := { baseContext with organizationName := config.PersistentAppOrg }
  let baseContext := { baseContext with spaceName := config.PersistentAppSpace }
  let baseContext := { baseContext with isPersistentApp := true }
  baseContext

/-- `AdminUserContext` (context.go, lines 175-184). -/
def AdminUserContext (context : ConfiguredContext) : UserContext :=
  { ApiUrl := context.config.ApiEndpoint
    Username := context.config.AdminUser
    Password := context.config.AdminPassword
    Org := ""
    Space := ""
    SkipSSLValidation := context.config.SkipSSLValidation }

/-- `RegularUserContext` (context.go, lines 186-195). -/
def RegularUserContext (context : ConfiguredContext) : UserContext :=
  { ApiUrl := context.config.ApiEndpoint
    Username := context.regularUserUsername
    Password := context.regularUserPassword
    Org := context.organizationName
    Space := context.spaceName
    SkipSSLValidation := context.config.SkipSSLValidation }

/-- `ShortTimeout` (context.go, lines 98-100). -/
def ShortTimeout (context : ConfiguredContext) : Duration := context.shortTimeout

/-- `LongTimeout` (context.go, lines 102-104). -/
def LongTimeout (context : ConfiguredContext) : Duration := context.longTimeout

/-- `IsPersistentOrgAndSpace` (context.go, lines 106-108). -/
def IsPersistentOrgAndSpace (context : ConfiguredContext) : Bool :=
  context.isPersistentOrgAndSpace

/-! ## Commands, the runner and the machine state -/

/-- One started `cf` command: the ambient identity it runs under (`none` outside any
`cf.AsUser` scope), its arguments, and the timeout handed to the runner. -/
structure Issued where
  asUser : Option UserContext
  args : List String
  timeout : Duration
deriving DecidableEq, Repr

/-- What a finished command exposes to context.go: `ExitCode()` and the `Out` buffer. -/
structure CmdResult where
  exitCode : Int
  out : String
deriving DecidableEq, Repr

/-- The command runner with the control plane behind it, over remote states `σ`: the
result of one command and the remote state it leaves. Packages `cf` and `runner` are
outside context.go, so what a command answers and does is a parameter. -/
structure Plane (σ : Type) where
  run : σ → Issued → CmdResult × σ

/-- The state the methods act on: the object behind the receiver pointer, the remote
state, the ambient identity, the commands started so far (oldest first) and whether a
gomega expectation has failed. -/
structure Machine (σ : Type) where
  context : ConfiguredContext
  world : σ
  ambient : Option UserContext
  issued : List Issued
  failed : Bool

/-- A fresh machine around `context`: nothing issued, nothing failed, no ambient identity. -/
def Machine.start {σ : Type} (context : ConfiguredContext) (world : σ) : Machine σ :=
  { context := context, world := world, ambient := none, issued := [], failed := false }

/-- The argument lists of the commands started so far, oldest first. -/
def Machine.commands {σ : Type} (m : Machine σ) : List (List String) :=
  m.issued.map Issued.args

/-- Modelled from the spec: `runner.NewCmdRunner(cf.Cf(args...), timeout).Run()` is
declared in packages `cf` and `runner`, outside context.go. Following the consumed
interface `Run(commandArgs, timeout) -> {exitCode, combinedOutput}`, the command is
started under the ambient identity, recorded, and its exit code and output are handed
back; judging them is left to the caller, as lines 143-146 of context.go do. -/
def Run {σ : Type} (plane : Plane σ) (args : List String) (timeout : Duration)
    (m : Machine σ) : CmdResult × Machine σ :=
  let cmd : Issued := { asUser := m.ambient, args := args, timeout := timeout }
  let r := plane.run m.world cmd
  (r.1, { m with world := r.2, issued := m.issued ++ [cmd] })

/-- Modelled from the spec: `cf.AsUser` is declared in package `cf`, outside context.go.
It "executes body with the administrative principal as the ambient identity for all
commands issued inside it; restores prior ambient identity afterward". -/
def AsUser {σ : Type} (user : UserContext) (_timeout : Duration)
    (body : Machine σ → Machine σ) (m : Machine σ) : Machine σ :=
  let m1 := body { m with ambient := some user }
  { m1 with ambient := m.ambient }

/-- The gbytes matcher `Say(pattern)` for a pattern without regular-expression
operators, on a buffer nobody has read from: the pattern occurs in the buffer. -/
def Say (pattern : String) (buffer : String) : Bool :=
  buffer.data.tails.any (fun t => pattern.data.isPrefixOf t)

/-- The assertion `Expect(actual).To(matcher)`: a mismatch is a fatal test failure. -/
def Expect {σ : Type} (matched : Bool) (m : Machine σ) : Machine σ :=
  if matched then m else { m with failed := true }

/-! ## The lifecycle methods -/

/-- `Setup` (context.go, lines 110-148). -/
def Setup {σ : Type} (plane : Plane σ) (m : Machine σ) : Machine σ :=
  let context := m.context
  let m :=
    if !context.isPersistentOrgAndSpace then
      AsUser (AdminUserContext context) context.shortTimeout (fun m =>
        let definition : quotaDefinition :=
          { Name := context.quotaDefinitionName
            TotalServices := "100"
            TotalRoutes := "1000"
            MemoryLimit := "10G"
            NonBasicServicesAllowed := true }
        let args := [
          "create-quota",
          context.quotaDefinitionName,
          "-m", definition.MemoryLimit,
          "-r", definition.TotalRoutes,
          "-s", definition.TotalServices]
        let args :=
          if definition.NonBasicServicesAllowed then args ++ ["--allow-paid-service-plans"]
          else args
        let m := (Run plane args context.shortTimeout m).2
        let m := (Run plane ["create-org", context.organizationName] context.shortTimeout m).2
        (Run plane ["set-quota", context.organizationName, definition.Name]
          context.shortTimeout m).2) m
    else m
  if !context.config.UseExistingUser then
    let createUserCmd :=
      Run plane ["create-user", context.regularUserUsername, context.regularUserPassword]
        context.shortTimeout m
    if createUserCmd.1.exitCode != 0 then
      Expect (Say "scim_resource_already_exists" createUserCmd.1.out) createUserCmd.2
    else createUserCmd.2
  else m

/-- `SetRunawayQuota` (context.go, lines 150-154). -/
def SetRunawayQuota {σ : Type} (plane : Plane σ) (m : Machine σ) : Machine σ :=
  let context := m.context
  AsUser (AdminUserContext context) context.shortTimeout (fun m =>
    (Run plane ["update-quota", context.quotaDefinitionName, "-m", RUNAWAY_QUOTA_MEM_LIMIT,
      "-i=-1"] context.shortTimeout m).2) m

/-- `Teardown` (context.go, lines 156-173). -/
def Teardown {σ : Type} (plane : Plane σ) (m : Machine σ) : Machine σ :=
  let context := m.context
  AsUser (AdminUserContext context) context.shortTimeout (fun m =>
    let m :=
      if !context.config.ShouldKeepUser then
        (Run plane ["delete-user", "-f", context.regularUserUsername]
          context.shortTimeout m).2
      else m
    let m :=
      if !context.isPersistentApp && !context.isPersistentOrgAndSpace then
        let m := (Run plane ["delete-org", "-f", context.organizationName]
          context.shortTimeout m).2
        (Run plane ["delete-quota", "-f", context.quotaDefinitionName]
          context.shortTimeout m).2
      else m
    if context.isPersistentOrgAndSpace then
      let m := (Run plane ["t", "-o", context.organizationName] context.shortTimeout m).2
      (Run plane ["delete-space", "-f", context.spaceName] context.shortTimeout m).2
    else m) m

/-- The name of a command: its first argument. -/
def cmdName (args : List String) : String := args.headD ""

/-- The order `Teardown` must respect: `a` is to be issued before `b`. -/
def mustPrecede (a b : List String) : Prop :=
  (cmdName a = "delete-user" ∧ cmdName b = "delete-org") ∨
  (cmdName a = "delete-org" ∧ cmdName b = "delete-quota") ∨
  (cmdName a = "delete-user" ∧ cmdName b = "delete-quota")

instance (a b : List String) : Decidable (mustPrecede a b) := by
  unfold mustPrecede; infer_instance

/-- A runner whose every command exits with code 0 and prints nothing, over a remote
state without content. -/
def quietPlane : Plane Unit :=
  { run := fun w _ => ({ exitCode := 0, out := "" }, w) }

/-- The configuration without overrides: nothing reused, nothing kept. -/
def defaultConfig : Config :=
  { ApiEndpoint := "api.example.com"
    AdminUser := "admin"
    AdminPassword := "secret"
    SkipSSLValidation := false
    UseExistingUser := false
    ExistingUser := ""
    ExistingUserPassword := ""
    UseExistingOrgAndSpace := false
    ExistingOrg := ""
    ExistingSpace := ""
    ExistingQuota := ""
    ShouldKeepUser := false
    PersistentAppOrg := ""
    PersistentAppSpace := ""
    PersistentAppQuotaName := ""
    ScaledTimeout := fun d => d }

/-- A runner whose every command exits with code 1 and prints a refusal that is not the
conflict text of the user store. -/
def refusingPlane : Plane Unit :=
  { run := fun w _ => ({ exitCode := 1, out := "FAILED\nServer error, status code: 500" }, w) }

/-- The remote state the listed commands leave behind, run in order from `world`. -/
def replay {σ : Type} (plane : Plane σ) (world : σ) (cmds : List Issued) : σ :=
  cmds.foldl (fun w c => (plane.run w c).2) world

/-- The answer to the last of the listed commands, run in order from `world`: the runner
is asked in the remote state that the commands before it have left. -/
def lastAnswer {σ : Type} (plane : Plane σ) (world : σ) (cmds : List Issued) :
    Option CmdResult :=
  match cmds.getLast? with
  | some c => some (plane.run (replay plane world cmds.dropLast) c).1
  | none => none

/-! ## A control plane of named resources

The remote control plane is outside the repository. The model below keeps what the
administrative listing interface shows: the quota definitions with their limits, the
organizations and the users. -/

/-- The limits of one quota definition, as text, the way the command line passes them. -/
structure QuotaLimits where
  memoryLimit : String
  instanceMemoryLimit : String
  totalRoutes : String
  totalServices : String
  nonBasicServicesAllowed : Bool
deriving DecidableEq, Repr

/-- The remote administrative state: quota definitions by name, organizations, users. -/
structure AdminState where
  quotas : List (String × QuotaLimits)
  orgs : List String
  users : List String
deriving DecidableEq, Repr

/-- The limits of a quota definition created without any flag. -/
def QuotaLimits.unset : QuotaLimits :=
  { memoryLimit := "0", instanceMemoryLimit := "-1", totalRoutes := "0",
    totalServices := "0", nonBasicServicesAllowed := false }

/-- A flag that takes its value from the next argument overwrites the limit it names. -/
def setLimit (flag value : String) (q : QuotaLimits) : QuotaLimits :=
  if flag = "-m" then { q with memoryLimit := value }
  else if flag = "-i" then { q with instanceMemoryLimit := value }
  else if flag = "-r" then { q with totalRoutes := value }
  else if flag = "-s" then { q with totalServices := value }
  else q

/-- A flag that stands alone: the paid-plans switch, or `-i=VALUE`. -/
def setSwitch (token : String) (q : QuotaLimits) : QuotaLimits :=
  if token = "--allow-paid-service-plans" then { q with nonBasicServicesAllowed := true }
  else if "-i=".data.isPrefixOf token.data then
    { q with instanceMemoryLimit := String.mk (token.data.drop 3) }
  else q

/-- The flags of create-quota and update-quota, left to right; `pending` is a flag still
waiting for its value. -/
def applyFlags : Option String → List String → QuotaLimits → QuotaLimits
  | _, [], q => q
  | some flag, value :: rest, q => applyFlags none rest (setLimit flag value q)
  | none, token :: rest, q =>
    if token ∈ ["-m", "-i", "-r", "-s"] then applyFlags (some token) rest q
    else applyFlags none rest (setSwitch token q)

/-- The resource a delete command names: the argument that is not the force flag. -/
def deleteTarget (first : String) (rest : List String) : Option String :=
  if first = "-f" then rest.head? else some first

/-- The answer of a command that went through. -/
def cmdOk : CmdResult := { exitCode := 0, out := "OK" }

/-- The answer to a create-user for a name the user store already holds. -/
def cmdUserExists : CmdResult :=
  { exitCode := 1, out := "FAILED\nscim_resource_already_exists: user exists" }

/-- Modelled from the spec: the remote control plane is an external collaborator that
"issues administrative operations: create/delete org, space, user, quota; returns
success/failure and output text". Creation adds the named resource, and answers a
create-user for an existing name with the conflict text; a forced deletion removes the
named resource and is not an error when it is absent; update-quota overwrites the limits
its flags name; set-quota, target and the commands on spaces leave quotas, organizations
and users as they are. -/
def adminStep (s : AdminState) (args : List String) : CmdResult × AdminState :=
  match args with
  | cmd :: first :: rest =>
    if cmd = "create-quota" then
      if first ∈ s.quotas.map Prod.fst then (cmdOk, s)
      else (cmdOk, { s with
        quotas := s.quotas ++ [(first, applyFlags none rest QuotaLimits.unset)] })
    else if cmd = "update-quota" then
      (cmdOk, { s with
        quotas := s.quotas.map
          (fun e => if e.1 = first then (e.1, applyFlags none rest e.2) else e) })
    else if cmd = "create-org" then
      if first ∈ s.orgs then (cmdOk, s) else (cmdOk, { s with orgs := s.orgs ++ [first] })
    else if cmd = "create-user" then
      if first ∈ s.users then (cmdUserExists, s)
      else (cmdOk, { s with users := s.users ++ [first] })
    else if cmd = "delete-user" then
      match deleteTarget first rest with
      | some name => (cmdOk, { s with users := s.users.filter (fun u => u != name) })
      | none => (cmdOk, s)
    else if cmd = "delete-org" then
      match deleteTarget first rest with
      | some name => (cmdOk, { s with orgs := s.orgs.filter (fun o => o != name) })
      | none => (cmdOk, s)
    else if cmd = "delete-quota" then
      match deleteTarget first rest with
      | some name => (cmdOk, { s with quotas := s.quotas.filter (fun e => e.1 != name) })
      | none => (cmdOk, s)
    else (cmdOk, s)
  | _ => (cmdOk, s)

/-- The runner in front of the control plane of named resources. -/
def adminPlane : Plane AdminState :=
  { run := fun s c => adminStep s c.args }

/-- The resource a create command names: its second argument. -/
def cmdTarget (args : List String) : String := args.getD 1 ""

/-- The remote state with no quota, organization or user. -/
def AdminState.empty : AdminState := { quotas := [], orgs := [], users := [] }

/-- A remote state in which the user that worker 3 generates at the time tag
`2024_01_01-10h00m00.000s` exists already. -/
def takenUserState : AdminState :=
  { quotas := [], orgs := [], users := ["CATS-USER-3-2024_01_01-10h00m00.000s"] }

/-- The default configuration with the keep-user flag set. -/
def keepUserConfig : Config := { defaultConfig with ShouldKeepUser := true }

/-- The configuration that reuses the existing user `bob` with password `pw1` and keeps
it after the run. -/
def bobConfig : Config :=
  { defaultConfig with
    UseExistingUser := true
    ExistingUser := "bob"
    ExistingUserPassword := "pw1"
    ShouldKeepUser := true }

/-- The number a string of decimal digits stands for. -/
def digitsValue (l : List Char) : Nat :=
  l.foldl (fun a c => a * 10 + (c.toNat - 48)) 0

/-! ## Command sequences -/

theorem Expect_issued {σ : Type} (b : Bool) (m : Machine σ) : (Expect b m).issued = m.issued := by
  unfold Expect; split <;> rfl

theorem Expect_context {σ : Type} (b : Bool) (m : Machine σ) :
    (Expect b m).context = m.context := by
  unfold Expect; split <;> rfl

theorem Expect_world {σ : Type} (b : Bool) (m : Machine σ) : (Expect b m).world = m.world := by
  unfold Expect; split <;> rfl

/-- The commands `Setup` starts, in order. -/
theorem Setup_commands {σ : Type} (plane : Plane σ) (m : Machine σ) :
    (Setup plane m).commands = m.commands ++
      ((if m.context.isPersistentOrgAndSpace then []
        else [["create-quota", m.context.quotaDefinitionName, "-m", "10G", "-r", "1000",
                "-s", "100", "--allow-paid-service-plans"],
              ["create-org", m.context.organizationName],
              ["set-quota", m.context.organizationName, m.context.quotaDefinitionName]]) ++
       (if m.context.config.UseExistingUser then []
        else [["create-user", m.context.regularUserUsername,
                m.context.regularUserPassword]])) := by
  unfold Setup
  cases h1 : m.context.isPersistentOrgAndSpace <;> cases h2 : m.context.config.UseExistingUser <;>
    simp [h1, h2, Machine.commands, AsUser, Run, Expect_issued, apply_ite Machine.issued]

/-- The commands `Teardown` starts, in order. -/
theorem Teardown_commands {σ : Type} (plane : Plane σ) (m : Machine σ) :
    (Teardown plane m).commands = m.commands ++
      ((if m.context.config.ShouldKeepUser then []
        else [["delete-user", "-f", m.context.regularUserUsername]]) ++
       (if m.context.isPersistentApp || m.context.isPersistentOrgAndSpace then []
        else [["delete-org", "-f", m.context.organizationName],
              ["delete-quota", "-f", m.context.quotaDefinitionName]]) ++
       (if m.context.isPersistentOrgAndSpace
        then [["t", "-o", m.context.organizationName],
              ["delete-space", "-f", m.context.spaceName]]
        else [])) := by
  unfold Teardown
  cases h1 : m.context.config.ShouldKeepUser <;> cases h2 : m.context.isPersistentApp <;>
    cases h3 : m.context.isPersistentOrgAndSpace <;>
    simp [h1, h2, h3, Machine.commands, AsUser, Run]

/-- The one command `SetRunawayQuota` starts. -/
theorem SetRunawayQuota_commands {σ : Type} (plane : Plane σ) (m : Machine σ) :
    (SetRunawayQuota plane m).commands = m.commands ++
      [["update-quota", m.context.quotaDefinitionName, "-m", "99999G", "-i=-1"]] := by
  simp [SetRunawayQuota, Machine.commands, AsUser, Run, RUNAWAY_QUOTA_MEM_LIMIT]

theorem start_commands {σ : Type} (context : ConfiguredContext) (world : σ) :
    (Machine.start context world).commands = [] := rfl

theorem start_context {σ : Type} (context : ConfiguredContext) (world : σ) :
    (Machine.start context world).context = context := rfl

/-! ## Teardown -/

/-- C1: `Teardown` issues the forced delete-org of `organizationName` and the forced
delete-quota of `quotaDefinitionName` exactly when `isPersistentApp` and
`isPersistentOrgAndSpace` are both false; when either flag is set (in particular when
`isPersistentApp` is set, whatever `isPersistentOrgAndSpace` is) no delete-org and no
delete-quota command is issued at all. -/
theorem teardown_org_quota_iff_not_persistent {σ : Type} (plane : Plane σ)
    (context : ConfiguredContext) (world : σ) :
    ((["delete-org", "-f", context.organizationName] ∈
          (Teardown plane (Machine.start context world)).commands ∧
        ["delete-quota", "-f", context.quotaDefinitionName] ∈
          (Teardown plane (Machine.start context world)).commands) ↔
      (context.isPersistentApp = false ∧ context.isPersistentOrgAndSpace = false)) ∧
    (context.isPersistentApp = true →
      ∀ c ∈ (Teardown plane (Machine.start context world)).commands,
        cmdName c ≠ "delete-org" ∧ cmdName c ≠ "delete-quota") ∧
    (context.isPersistentOrgAndSpace = true →
      ∀ c ∈ (Teardown plane (Machine.start context world)).commands,
        cmdName c ≠ "delete-org" ∧ cmdName c ≠ "delete-quota") := by
  rw [Teardown_commands, start_commands, start_context]
  cases h1 : context.config.ShouldKeepUser <;> cases h2 : context.isPersistentApp <;>
    cases h3 : context.isPersistentOrgAndSpace <;> simp [cmdName]

/-- C2: with `isPersistentOrgAndSpace` set, `Teardown` issues no delete-org and no
delete-quota command, and it issues the forced delete-space of the context's own
`spaceName` immediately after the target command `t -o organizationName`; with the flag
clear it issues no delete-space command. -/
theorem teardown_persistent_org_deletes_space_only {σ : Type} (plane : Plane σ)
    (context : ConfiguredContext) (world : σ) :
    (context.isPersistentOrgAndSpace = true →
      (∀ c ∈ (Teardown plane (Machine.start context world)).commands,
        cmdName c ≠ "delete-org" ∧ cmdName c ≠ "delete-quota") ∧
      ∃ before after, (Teardown plane (Machine.start context world)).commands =
        before ++ [["t", "-o", context.organizationName],
                   ["delete-space", "-f", context.spaceName]] ++ after) ∧
    (context.isPersistentOrgAndSpace = false →
      ∀ c ∈ (Teardown plane (Machine.start context world)).commands,
        cmdName c ≠ "delete-space") := by
  rw [Teardown_commands, start_commands, start_context]
  refine ⟨fun h3 => ⟨?_, ?_⟩, fun h3 => ?_⟩
  · cases h1 : context.config.ShouldKeepUser <;> cases h2 : context.isPersistentApp <;>
      simp [h3, cmdName]
  · refine ⟨if context.config.ShouldKeepUser then []
        else [["delete-user", "-f", context.regularUserUsername]], [], ?_⟩
    cases h1 : context.config.ShouldKeepUser <;> simp [h3]
  · cases h1 : context.config.ShouldKeepUser <;> cases h2 : context.isPersistentApp <;>
      simp [h3, cmdName]

theorem mustPrecede_ne {a b : List String} (h : mustPrecede a b) : a ≠ b := by
  rintro rfl
  rcases h with ⟨h1, h2⟩ | ⟨h1, h2⟩ | ⟨h1, h2⟩ <;> rw [h1] at h2 <;> revert h2 <;> decide

/-- In a list where no later entry is related to an earlier one, related entries stand
in index order. -/
theorem index_lt_of_pairwise {α : Type} {R : α → α → Prop} {l : List α}
    (hl : l.Pairwise (fun x y => ¬ R y x)) {i j : Nat} {a b : α}
    (hi : l[i]? = some a) (hj : l[j]? = some b) (hab : R a b) (hne : a ≠ b) : i < j := by
  obtain ⟨hi1, hi2⟩ := List.getElem?_eq_some.1 hi
  obtain ⟨hj1, hj2⟩ := List.getElem?_eq_some.1 hj
  by_contra hlt
  rcases Nat.lt_or_eq_of_le (Nat.le_of_not_lt hlt) with h | h
  · have := List.pairwise_iff_getElem.1 hl j i hj1 hi1 h
    rw [hi2, hj2] at this
    exact this hab
  · subst h
    exact hne (hi2.symm.trans hj2)

theorem Teardown_pairwise {σ : Type} (plane : Plane σ) (context : ConfiguredContext)
    (world : σ) :
    (Teardown plane (Machine.start context world)).commands.Pairwise
      (fun x y => ¬ mustPrecede y x) := by
  rw [Teardown_commands, start_commands, start_context]
  cases h1 : context.config.ShouldKeepUser <;> cases h2 : context.isPersistentApp <;>
    cases h3 : context.isPersistentOrgAndSpace <;> simp [mustPrecede, cmdName]

/-- C3: for a context built by `NewContext` from a configuration with `UseExistingUser`,
`UseExistingOrgAndSpace` and `ShouldKeepUser` all false, `Teardown` issues exactly the
forced delete-user of the generated user, then the forced delete-org of the generated
organization, then the forced delete-quota of the generated quota; and in the trace of
`Teardown` on any context, a delete-user command stands before every delete-org command
and a delete-org command before every delete-quota command. -/
theorem teardown_default_sequence_and_order {σ : Type} (plane : Plane σ) (config : Config)
    (node : Int) (timeTag : String) (world : σ)
    (hUser : config.UseExistingUser = false)
    (hOrg : config.UseExistingOrgAndSpace = false)
    (hKeep : config.ShouldKeepUser = false) :
    (Teardown plane (Machine.start (NewContext config node timeTag) world)).commands =
      [["delete-user", "-f", Sprintf "CATS-USER-" node timeTag],
       ["delete-org", "-f", Sprintf "CATS-ORG-" node timeTag],
       ["delete-quota", "-f", Sprintf "CATS-QUOTA-" node timeTag]] ∧
    ∀ (context : ConfiguredContext) (w : σ) (i j : Nat) (a b : List String),
      (Teardown plane (Machine.start context w)).commands[i]? = some a →
      (Teardown plane (Machine.start context w)).commands[j]? = some b →
      mustPrecede a b → i < j := by
  refine ⟨?_, ?_⟩
  · rw [Teardown_commands, start_commands, start_context]
    simp [NewContext, hUser, hOrg, hKeep]
  · intro context w i j a b hi hj hab
    exact index_lt_of_pairwise (Teardown_pairwise plane context w) hi hj hab
      (mustPrecede_ne hab)

/-- C3 at worker 3 and time tag `2024_01_01-10h00m00.000s` with the default
configuration: the three deletions, by name, in order. -/
theorem teardown_default_sequence_and_order_witness :
    defaultConfig.UseExistingUser = false ∧
    defaultConfig.UseExistingOrgAndSpace = false ∧
    defaultConfig.ShouldKeepUser = false ∧
    (Teardown quietPlane
        (Machine.start (NewContext defaultConfig 3 "2024_01_01-10h00m00.000s") ())).commands =
      [["delete-user", "-f", "CATS-USER-3-2024_01_01-10h00m00.000s"],
       ["delete-org", "-f", "CATS-ORG-3-2024_01_01-10h00m00.000s"],
       ["delete-quota", "-f", "CATS-QUOTA-3-2024_01_01-10h00m00.000s"]] := by
  refine ⟨rfl, rfl, rfl, ?_⟩
  rw [(teardown_default_sequence_and_order quietPlane defaultConfig 3
    "2024_01_01-10h00m00.000s" () rfl rfl rfl).1]
  decide

/-- C4: `Teardown` issues the forced delete-user of `regularUserUsername` when
`config.ShouldKeepUser` is false and no delete-user command at all when it is true; so for
a context built by `NewContext` around the reused user `bob` with the keep flag set,
`bob` is not deleted. -/
theorem teardown_delete_user_unless_kept {σ : Type} (plane : Plane σ)
    (context : ConfiguredContext) (world : σ) :
    (context.config.ShouldKeepUser = false →
      ["delete-user", "-f", context.regularUserUsername] ∈
        (Teardown plane (Machine.start context world)).commands) ∧
    (context.config.ShouldKeepUser = true →
      ∀ c ∈ (Teardown plane (Machine.start context world)).commands,
        cmdName c ≠ "delete-user") ∧
    (∀ (config : Config) (node : Int) (timeTag : String),
      config.UseExistingUser = true → config.ExistingUser = "bob" →
      config.ShouldKeepUser = true →
      (NewContext config node timeTag).regularUserUsername = "bob" ∧
      ["delete-user", "-f", "bob"] ∉
        (Teardown plane (Machine.start (NewContext config node timeTag) world)).commands) := by
  refine ⟨fun h1 => ?_, fun h1 => ?_, fun config node timeTag hU hB hK => ⟨?_, ?_⟩⟩
  · rw [Teardown_commands, start_commands, start_context]
    simp [h1]
  · rw [Teardown_commands, start_commands, start_context]
    cases h2 : context.isPersistentApp <;> cases h3 : context.isPersistentOrgAndSpace <;>
      simp [h1, cmdName]
  · simp [NewContext, hU, hB]
  · rw [Teardown_commands, start_commands, start_context]
    have hK2 : (NewContext config node timeTag).config.ShouldKeepUser = true := hK
    cases h2 : (NewContext config node timeTag).isPersistentApp <;>
      cases h3 : (NewContext config node timeTag).isPersistentOrgAndSpace <;>
      simp [hK2]

/-- C4 at the reused user `bob` with the keep flag set: `Teardown` deletes the generated
organization and quota and does not delete `bob`. -/
theorem teardown_delete_user_unless_kept_witness :
    bobConfig.UseExistingUser = true ∧ bobConfig.ExistingUser = "bob" ∧
    bobConfig.ShouldKeepUser = true ∧
    (NewContext bobConfig 3 "2024_01_01-10h00m00.000s").regularUserUsername = "bob" ∧
    ["delete-user", "-f", "bob"] ∉
      (Teardown quietPlane
        (Machine.start (NewContext bobConfig 3 "2024_01_01-10h00m00.000s") ())).commands :=
  ⟨rfl, rfl, rfl,
    (teardown_delete_user_unless_kept quietPlane
      (NewContext bobConfig 3 "2024_01_01-10h00m00.000s") ()).2.2
      bobConfig 3 "2024_01_01-10h00m00.000s" rfl rfl rfl⟩

/-- A context built by `NewPersistentAppContext` has `isPersistentApp` set, so its
`Teardown` issues no delete-org and no delete-quota command. -/
theorem Teardown_persistentApp {σ : Type} (plane : Plane σ) (config : Config) (node : Int)
    (timeTag : String) (world : σ) :
    ∀ c ∈ (Teardown plane
        (Machine.start (NewPersistentAppContext config node timeTag) world)).commands,
      cmdName c ≠ "delete-org" ∧ cmdName c ≠ "delete-quota" := by
  rw [Teardown_commands, start_commands, start_context]
  have h2 : (NewPersistentAppContext config node timeTag).isPersistentApp = true := rfl
  cases h1 : (NewPersistentAppContext config node timeTag).config.ShouldKeepUser <;>
    cases h3 : (NewPersistentAppContext config node timeTag).isPersistentOrgAndSpace <;>
    simp [h2, cmdName]

/-! ## Setup -/

/-- C5: the commands `Setup` issues are, in this order: create-quota with
`-m 10G -r 1000 -s 100 --allow-paid-service-plans`, create-org and set-quota when
`isPersistentOrgAndSpace` is false (none of them otherwise), then create-user with the
regular user name and password when `config.UseExistingUser` is false (nothing
otherwise). So with `UseExistingUser` set no create-user is issued, and with
`isPersistentOrgAndSpace` set no create-quota and no create-org is issued. -/
theorem setup_command_sequence {σ : Type} (plane : Plane σ) (context : ConfiguredContext)
    (world : σ) :
    (Setup plane (Machine.start context world)).commands =
      (if context.isPersistentOrgAndSpace then []
        else [["create-quota", context.quotaDefinitionName, "-m", "10G", "-r", "1000",
                "-s", "100", "--allow-paid-service-plans"],
              ["create-org", context.organizationName],
              ["set-quota", context.organizationName, context.quotaDefinitionName]]) ++
      (if context.config.UseExistingUser then []
        else [["create-user", context.regularUserUsername, context.regularUserPassword]]) ∧
    (context.config.UseExistingUser = true →
      ∀ c ∈ (Setup plane (Machine.start context world)).commands,
        cmdName c ≠ "create-user") ∧
    (context.isPersistentOrgAndSpace = true →
      ∀ c ∈ (Setup plane (Machine.start context world)).commands,
        cmdName c ≠ "create-quota" ∧ cmdName c ≠ "create-org") := by
  rw [Setup_commands, start_commands, start_context]
  refine ⟨by simp, fun h => ?_, fun h => ?_⟩
  · cases h1 : context.isPersistentOrgAndSpace <;> simp [h, cmdName]
  · cases h1 : context.config.UseExistingUser <;> simp [h, cmdName]

/-- C5 at the reused user `bob` with password `pw1`: `Setup` creates the quota and the
organization and attempts no user creation. -/
theorem setup_command_sequence_witness :
    bobConfig.UseExistingUser = true ∧
    (Setup quietPlane
      (Machine.start (NewContext bobConfig 3 "2024_01_01-10h00m00.000s") ())).commands =
      [["create-quota", "CATS-QUOTA-3-2024_01_01-10h00m00.000s", "-m", "10G", "-r", "1000",
         "-s", "100", "--allow-paid-service-plans"],
       ["create-org", "CATS-ORG-3-2024_01_01-10h00m00.000s"],
       ["set-quota", "CATS-ORG-3-2024_01_01-10h00m00.000s",
         "CATS-QUOTA-3-2024_01_01-10h00m00.000s"]] := by
  refine ⟨rfl, ?_⟩
  rw [(setup_command_sequence quietPlane
    (NewContext bobConfig 3 "2024_01_01-10h00m00.000s") ()).1]
  decide

/-- The matcher `Say` holds exactly when the pattern is a contiguous part of the buffer. -/
theorem Say_iff (pattern buffer : String) :
    Say pattern buffer = true ↔ pattern.data <:+: buffer.data := by
  unfold Say
  rw [List.any_eq_true, List.infix_iff_prefix_suffix]
  constructor
  · rintro ⟨t, ht, hp⟩
    exact ⟨t, List.isPrefixOf_iff_prefix.1 hp, (List.mem_tails _ _).1 ht⟩
  · rintro ⟨t, hp, ht⟩
    exact ⟨t, (List.mem_tails _ _).2 ht, List.isPrefixOf_iff_prefix.2 hp⟩

/-- How lines 144-146 of context.go judge an answer `r` on a machine that has not
failed. -/
theorem judge_failed {σ : Type} (r : CmdResult) (m : Machine σ) (hm : m.failed = false) :
    (r.exitCode ≠ 0 →
      ((if (r.exitCode != 0) = true then Expect (Say "scim_resource_already_exists" r.out) m
          else m).failed = false ↔
        "scim_resource_already_exists".data <:+: r.out.data)) ∧
    (r.exitCode = 0 →
      (if (r.exitCode != 0) = true then Expect (Say "scim_resource_already_exists" r.out) m
        else m).failed = false) := by
  rw [← Say_iff]
  constructor
  · intro h
    cases h3 : Say "scim_resource_already_exists" r.out <;> simp [Expect, h, hm]
  · intro h
    simp [h, hm]

/-- C6: with `config.UseExistingUser` false, the last command `Setup` starts is the
create-user, outside any identity scope, and with `r` the answer the runner gives to it
in the remote state the earlier commands have left: when `r.exitCode` is not 0, `Setup`
ends without a fatal failure exactly when `r.out` contains
`scim_resource_already_exists`; when `r.exitCode` is 0 it ends without one whatever
`r.out` is. The answers to the earlier commands play no part. -/
theorem setup_tolerates_existing_user_only {σ : Type} (plane : Plane σ)
    (context : ConfiguredContext) (world : σ)
    (hUser : context.config.UseExistingUser = false) :
    ∃ r : CmdResult,
      (Setup plane (Machine.start context world)).issued.getLast? =
        some { asUser := none,
               args := ["create-user", context.regularUserUsername,
                 context.regularUserPassword],
               timeout := context.shortTimeout } ∧
      lastAnswer plane world (Setup plane (Machine.start context world)).issued = some r ∧
      (r.exitCode ≠ 0 →
        ((Setup plane (Machine.start context world)).failed = false ↔
          "scim_resource_already_exists".data <:+: r.out.data)) ∧
      (r.exitCode = 0 → (Setup plane (Machine.start context world)).failed = false) := by
  have hlast : (Setup plane (Machine.start context world)).issued.getLast? =
      some { asUser := none,
             args := ["create-user", context.regularUserUsername,
               context.regularUserPassword],
             timeout := context.shortTimeout } := by
    cases h1 : context.isPersistentOrgAndSpace <;>
      simp [Setup, hUser, h1, AsUser, Run, Machine.start, Expect_issued,
        apply_ite Machine.issued]
  refine ⟨(plane.run
      (replay plane world (Setup plane (Machine.start context world)).issued.dropLast)
      { asUser := none,
        args := ["create-user", context.regularUserUsername, context.regularUserPassword],
        timeout := context.shortTimeout }).1, hlast, ?_, ?_⟩
  · simp only [lastAnswer, hlast]
  · cases h1 : context.isPersistentOrgAndSpace
    · have hw : replay plane world
          (Setup plane (Machine.start context world)).issued.dropLast =
          (plane.run (plane.run (plane.run world
            { asUser := some (AdminUserContext context),
              args := ["create-quota", context.quotaDefinitionName, "-m", "10G", "-r",
                "1000", "-s", "100", "--allow-paid-service-plans"],
              timeout := context.shortTimeout }).2
            { asUser := some (AdminUserContext context),
              args := ["create-org", context.organizationName],
              timeout := context.shortTimeout }).2
            { asUser := some (AdminUserContext context),
              args := ["set-quota", context.organizationName, context.quotaDefinitionName],
              timeout := context.shortTimeout }).2 := by
        simp [Setup, hUser, h1, AsUser, Run, Machine.start, Expect_issued,
          apply_ite Machine.issued, replay]
      rw [hw]
      simp only [Setup, hUser, h1, AsUser, Run, Machine.start, Bool.not_false, if_true]
      exact judge_failed _ _ rfl
    · have hw : replay plane world
          (Setup plane (Machine.start context world)).issued.dropLast = world := by
        simp [Setup, hUser, h1, AsUser, Run, Machine.start, Expect_issued,
          apply_ite Machine.issued, replay]
      rw [hw]
      simp only [Setup, hUser, h1, AsUser, Run, Machine.start, Bool.not_false,
        Bool.not_true, if_true, if_false, Bool.false_eq_true]
      exact judge_failed _ _ rfl

/-- C6 on the control plane of named resources, from a remote state where the generated
user exists already: create-user is answered with exit code 1 and the conflict text, and
`Setup` ends without a fatal failure; a refusal with exit code 1 and another text is
fatal. -/
theorem setup_tolerates_existing_user_only_witness :
    defaultConfig.UseExistingUser = false ∧
    lastAnswer adminPlane takenUserState
      (Setup adminPlane (Machine.start
        (NewContext defaultConfig 3 "2024_01_01-10h00m00.000s") takenUserState)).issued =
      some { exitCode := 1, out := "FAILED\nscim_resource_already_exists: user exists" } ∧
    (Setup adminPlane (Machine.start
      (NewContext defaultConfig 3 "2024_01_01-10h00m00.000s") takenUserState)).failed = false ∧
    (Setup refusingPlane (Machine.start
      (NewContext defaultConfig 3 "2024_01_01-10h00m00.000s") ())).failed = true := by
  have ha : lastAnswer adminPlane takenUserState
      (Setup adminPlane (Machine.start
        (NewContext defaultConfig 3 "2024_01_01-10h00m00.000s") takenUserState)).issued =
      some { exitCode := 1, out := "FAILED\nscim_resource_already_exists: user exists" } := by
    decide
  obtain ⟨r, _, hr, h1, _⟩ := setup_tolerates_existing_user_only adminPlane
    (NewContext defaultConfig 3 "2024_01_01-10h00m00.000s") takenUserState rfl
  rw [ha] at hr
  have hr2 := (Option.some.inj hr).symm
  subst hr2
  exact ⟨rfl, ha, (h1 (by decide)).2 ((Say_iff _ _).1 (by decide)), by decide⟩

/-- C9, amended: with `isPersistentOrgAndSpace` false, `Setup` issues create-quota,
create-org and set-quota (and create-user unless a user is reused) and nothing else: no
command of `Setup` is a create-space, although `RegularUserContext` targets `spaceName`. -/
theorem setup_creates_no_space {σ : Type} (plane : Plane σ) (context : ConfiguredContext)
    (world : σ) (hOrg : context.isPersistentOrgAndSpace = false) :
    (∀ c ∈ (Setup plane (Machine.start context world)).commands,
      cmdName c ∈ ["create-quota", "create-org", "set-quota", "create-user"] ∧
      cmdName c ≠ "create-space") ∧
    ["create-quota", context.quotaDefinitionName, "-m", "10G", "-r", "1000", "-s", "100",
      "--allow-paid-service-plans"] ∈ (Setup plane (Machine.start context world)).commands ∧
    ["create-org", context.organizationName] ∈
      (Setup plane (Machine.start context world)).commands ∧
    (context.config.UseExistingUser = false →
      ["create-user", context.regularUserUsername, context.regularUserPassword] ∈
        (Setup plane (Machine.start context world)).commands) ∧
    (RegularUserContext context).Space = context.spaceName := by
  rw [Setup_commands, start_commands, start_context]
  cases h1 : context.config.UseExistingUser <;> simp [hOrg, cmdName, RegularUserContext]

/-- C9 amended, at worker 3 with the default configuration. -/
theorem setup_creates_no_space_witness :
    (NewContext defaultConfig 3 "2024_01_01-10h00m00.000s").isPersistentOrgAndSpace = false ∧
    ∀ c ∈ (Setup quietPlane
        (Machine.start (NewContext defaultConfig 3 "2024_01_01-10h00m00.000s") ())).commands,
      cmdName c ∈ ["create-quota", "create-org", "set-quota", "create-user"] ∧
      cmdName c ≠ "create-space" :=
  ⟨rfl, (setup_creates_no_space quietPlane
    (NewContext defaultConfig 3 "2024_01_01-10h00m00.000s") () rfl).1⟩

/-- C9 as stated fails: at worker 3 with the default configuration
`isPersistentOrgAndSpace` is false, `Setup` succeeds, and none of its four commands is a
create-space or so much as mentions the space `CATS-SPACE-3-2024_01_01-10h00m00.000s`
that `RegularUserContext` targets. -/
theorem setup_creates_space_counterexample :
    (NewContext defaultConfig 3 "2024_01_01-10h00m00.000s").isPersistentOrgAndSpace = false ∧
    (RegularUserContext (NewContext defaultConfig 3 "2024_01_01-10h00m00.000s")).Space =
      "CATS-SPACE-3-2024_01_01-10h00m00.000s" ∧
    (Setup quietPlane
      (Machine.start (NewContext defaultConfig 3 "2024_01_01-10h00m00.000s") ())).failed
        = false ∧
    (Setup quietPlane
      (Machine.start (NewContext defaultConfig 3 "2024_01_01-10h00m00.000s") ())).commands =
      [["create-quota", "CATS-QUOTA-3-2024_01_01-10h00m00.000s", "-m", "10G", "-r", "1000",
         "-s", "100", "--allow-paid-service-plans"],
       ["create-org", "CATS-ORG-3-2024_01_01-10h00m00.000s"],
       ["set-quota", "CATS-ORG-3-2024_01_01-10h00m00.000s",
         "CATS-QUOTA-3-2024_01_01-10h00m00.000s"],
       ["create-user", "CATS-USER-3-2024_01_01-10h00m00.000s", "meow"]] ∧
    ¬ ∃ c ∈ (Setup quietPlane
        (Machine.start (NewContext defaultConfig 3 "2024_01_01-10h00m00.000s") ())).commands,
      cmdName c = "create-space" ∨ "CATS-SPACE-3-2024_01_01-10h00m00.000s" ∈ c := by
  decide

/-! ## The lifecycle on the control plane of named resources -/

theorem Setup_context {σ : Type} (plane : Plane σ) (m : Machine σ) :
    (Setup plane m).context = m.context := by
  unfold Setup
  cases h1 : m.context.isPersistentOrgAndSpace <;>
    cases h2 : m.context.config.UseExistingUser <;>
    simp [h1, h2, AsUser, Run, Expect_context, apply_ite Machine.context]

theorem applyFlags_runaway (q : QuotaLimits) :
    applyFlags none ["-m", RUNAWAY_QUOTA_MEM_LIMIT, "-i=-1"] q =
      { q with memoryLimit := "99999G", instanceMemoryLimit := "-1" } := by
  have h1 : ("-i=".data.isPrefixOf "-i=-1".data) = true := by decide
  have h2 : String.mk ("-i=-1".data.drop 3) = "-1" := by decide
  simp [applyFlags, setLimit, setSwitch, h1, h2, RUNAWAY_QUOTA_MEM_LIMIT]

/-- The remote state `Teardown` leaves when neither persistence flag is set. -/
theorem Teardown_world_ephemeral (m : Machine AdminState)
    (hApp : m.context.isPersistentApp = false)
    (hOrg : m.context.isPersistentOrgAndSpace = false) :
    (Teardown adminPlane m).world =
      { quotas := m.world.quotas.filter (fun e => e.1 != m.context.quotaDefinitionName)
        orgs := m.world.orgs.filter (fun o => o != m.context.organizationName)
        users :=
          if m.context.config.ShouldKeepUser then m.world.users
          else m.world.users.filter (fun u => u != m.context.regularUserUsername) } := by
  cases hKeep : m.context.config.ShouldKeepUser <;>
    simp [Teardown, AsUser, Run, adminPlane, adminStep, deleteTarget, hApp, hOrg, hKeep]

/-- The remote state `Setup` leaves when `isPersistentOrgAndSpace` is false: the quota,
the organization and, unless a user is reused, the user are added where absent. -/
theorem Setup_world_ephemeral (m : Machine AdminState)
    (hOrg : m.context.isPersistentOrgAndSpace = false) :
    (Setup adminPlane m).world =
      { quotas :=
          if m.context.quotaDefinitionName ∈ m.world.quotas.map Prod.fst then m.world.quotas
          else m.world.quotas ++ [(m.context.quotaDefinitionName,
            applyFlags none ["-m", "10G", "-r", "1000", "-s", "100",
              "--allow-paid-service-plans"] QuotaLimits.unset)]
        orgs :=
          if m.context.organizationName ∈ m.world.orgs then m.world.orgs
          else m.world.orgs ++ [m.context.organizationName]
        users :=
          if m.context.config.UseExistingUser then m.world.users
          else if m.context.regularUserUsername ∈ m.world.users then m.world.users
          else m.world.users ++ [m.context.regularUserUsername] } := by
  cases hU : m.context.config.UseExistingUser <;>
    by_cases hq : m.context.quotaDefinitionName ∈ m.world.quotas.map Prod.fst <;>
    by_cases ho : m.context.organizationName ∈ m.world.orgs <;>
    by_cases hu : m.context.regularUserUsername ∈ m.world.users <;>
    simp [Setup, AsUser, Run, adminPlane, adminStep, hOrg, hU, hq, ho, hu, Expect_world,
      apply_ite Machine.world]

/-- Removing a name from a list that does not hold it changes nothing. -/
theorem filter_ne_of_not_mem {l : List String} {x : String} (h : x ∉ l) :
    l.filter (fun u => u != x) = l := by
  rw [List.filter_eq_self]
  intro a ha
  have : a ≠ x := fun e => h (e ▸ ha)
  simpa using this

/-- Removing a quota name that no entry carries changes nothing. -/
theorem filter_fst_ne_of_not_mem {l : List (String × QuotaLimits)} {x : String}
    (h : x ∉ l.map Prod.fst) : l.filter (fun e => e.1 != x) = l := by
  rw [List.filter_eq_self]
  intro a ha
  have : a.1 ≠ x := fun e => h (e ▸ List.mem_map_of_mem Prod.fst ha)
  simpa using this

/-- C8, amended: for a context with `isPersistentOrgAndSpace` and `isPersistentApp` both
false, on the control plane of named resources and from every remote state:
`Setup` leaves the quota `quotaDefinitionName`, the organization `organizationName` and,
unless a user is reused, the user `regularUserUsername` in existence; every create-quota
and create-org command of `Setup` is answered by a forced delete of the same name in
`Teardown`, and every create-user too unless `config.ShouldKeepUser` is set; the state
after `Setup` and then `Teardown` is the initial state without the quota and the
organization of those names and, when `ShouldKeepUser` is false, without the user of that
name, so it holds none of them and nothing else `Setup` added, and it is the initial
state itself when none of the three names was in use; when `ShouldKeepUser` is true the
users are as `Setup` left them. -/
theorem setup_teardown_leaves_nothing (context : ConfiguredContext) (world : AdminState)
    (hOrg : context.isPersistentOrgAndSpace = false)
    (hApp : context.isPersistentApp = false) :
    (context.quotaDefinitionName ∈
        (Setup adminPlane (Machine.start context world)).world.quotas.map Prod.fst ∧
      context.organizationName ∈ (Setup adminPlane (Machine.start context world)).world.orgs ∧
      (context.config.UseExistingUser = false →
        context.regularUserUsername ∈
          (Setup adminPlane (Machine.start context world)).world.users)) ∧
    (∀ c ∈ (Setup adminPlane (Machine.start context world)).commands,
      (cmdName c = "create-quota" →
        ["delete-quota", "-f", cmdTarget c] ∈
          (Teardown adminPlane (Machine.start context
            (Setup adminPlane (Machine.start context world)).world)).commands) ∧
      (cmdName c = "create-org" →
        ["delete-org", "-f", cmdTarget c] ∈
          (Teardown adminPlane (Machine.start context
            (Setup adminPlane (Machine.start context world)).world)).commands) ∧
      (cmdName c = "create-user" → context.config.ShouldKeepUser = false →
        ["delete-user", "-f", cmdTarget c] ∈
          (Teardown adminPlane (Machine.start context
            (Setup adminPlane (Machine.start context world)).world)).commands)) ∧
    ((Teardown adminPlane (Setup adminPlane (Machine.start context world))).world.quotas =
        world.quotas.filter (fun e => e.1 != context.quotaDefinitionName) ∧
      (Teardown adminPlane (Setup adminPlane (Machine.start context world))).world.orgs =
        world.orgs.filter (fun o => o != context.organizationName) ∧
      (context.config.ShouldKeepUser = false →
        (Teardown adminPlane (Setup adminPlane (Machine.start context world))).world.users =
          world.users.filter (fun u => u != context.regularUserUsername)) ∧
      (context.config.ShouldKeepUser = true →
        (Teardown adminPlane (Setup adminPlane (Machine.start context world))).world.users =
          (Setup adminPlane (Machine.start context world)).world.users)) ∧
    (context.quotaDefinitionName ∉
        ((Teardown adminPlane (Setup adminPlane (Machine.start context world))).world.quotas.map
          Prod.fst) ∧
      context.organizationName ∉
        (Teardown adminPlane (Setup adminPlane (Machine.start context world))).world.orgs ∧
      (context.config.ShouldKeepUser = false →
        context.regularUserUsername ∉
          (Teardown adminPlane (Setup adminPlane (Machine.start context world))).world.users)) ∧
    (context.config.ShouldKeepUser = false →
      context.quotaDefinitionName ∉ world.quotas.map Prod.fst →
      context.organizationName ∉ world.orgs →
      context.regularUserUsername ∉ world.users →
      (Teardown adminPlane (Setup adminPlane (Machine.start context world))).world = world) := by
  have hc := Setup_context adminPlane (Machine.start context world)
  rw [start_context] at hc
  have hS := Setup_world_ephemeral (Machine.start context world) hOrg
  have hT := Teardown_world_ephemeral (Setup adminPlane (Machine.start context world))
    (by rw [hc]; exact hApp) (by rw [hc]; exact hOrg)
  rw [hc] at hT
  simp only [start_context] at hS
  have hw : (Machine.start context world).world = world := rfl
  rw [hw] at hS
  have hq : (Teardown adminPlane (Setup adminPlane (Machine.start context world))).world.quotas =
      world.quotas.filter (fun e => e.1 != context.quotaDefinitionName) := by
    rw [hT, hS]
    by_cases h : context.quotaDefinitionName ∈ world.quotas.map Prod.fst <;>
      simp [h, List.filter_append]
  have ho : (Teardown adminPlane (Setup adminPlane (Machine.start context world))).world.orgs =
      world.orgs.filter (fun o => o != context.organizationName) := by
    rw [hT, hS]
    by_cases h : context.organizationName ∈ world.orgs <;> simp [h, List.filter_append]
  have hu : context.config.ShouldKeepUser = false →
      (Teardown adminPlane (Setup adminPlane (Machine.start context world))).world.users =
        world.users.filter (fun u => u != context.regularUserUsername) := by
    intro hk
    rw [hT, hS]
    cases hU : context.config.UseExistingUser <;>
      by_cases h : context.regularUserUsername ∈ world.users <;>
      simp [hk, h, List.filter_append]
  have hk : context.config.ShouldKeepUser = true →
      (Teardown adminPlane (Setup adminPlane (Machine.start context world))).world.users =
        (Setup adminPlane (Machine.start context world)).world.users := by
    intro hk
    rw [hT]
    simp [hk]
  refine ⟨?_, ?_, ⟨hq, ho, hu, hk⟩, ⟨?_, ?_, ?_⟩, ?_⟩
  · rw [hS]
    refine ⟨?_, ?_, fun hU => ?_⟩
    · by_cases h : context.quotaDefinitionName ∈ world.quotas.map Prod.fst <;> simp [h]
    · by_cases h : context.organizationName ∈ world.orgs <;> simp [h]
    · by_cases h : context.regularUserUsername ∈ world.users <;> simp [hU, h]
  · rw [Setup_commands, Teardown_commands, start_commands, start_context, start_context]
    cases hU : context.config.UseExistingUser <;>
      cases hK : context.config.ShouldKeepUser <;>
      simp [hOrg, hApp, cmdName, cmdTarget]
  · rw [hq]; simp
  · rw [ho]; simp
  · intro hK; rw [hu hK]; simp
  · intro hK h1 h2 h3
    have e1 := hq.trans (filter_fst_ne_of_not_mem h1)
    have e2 := ho.trans (filter_ne_of_not_mem h2)
    have e3 := (hu hK).trans (filter_ne_of_not_mem h3)
    calc (Teardown adminPlane (Setup adminPlane (Machine.start context world))).world
        = { quotas :=
              (Teardown adminPlane (Setup adminPlane (Machine.start context world))).world.quotas
            orgs :=
              (Teardown adminPlane (Setup adminPlane (Machine.start context world))).world.orgs
            users :=
              (Teardown adminPlane
                (Setup adminPlane (Machine.start context world))).world.users } := rfl
      _ = { quotas := world.quotas, orgs := world.orgs, users := world.users } := by
          rw [e1, e2, e3]
      _ = world := rfl

/-- C8 amended, at worker 3 with the default configuration, from the empty remote
state: `Setup` creates the three resources and after `Teardown` the state is empty
again. -/
theorem setup_teardown_leaves_nothing_witness :
    (NewContext defaultConfig 3 "2024_01_01-10h00m00.000s").isPersistentOrgAndSpace = false ∧
    (NewContext defaultConfig 3 "2024_01_01-10h00m00.000s").isPersistentApp = false ∧
    "CATS-ORG-3-2024_01_01-10h00m00.000s" ∈
      (Setup adminPlane (Machine.start
        (NewContext defaultConfig 3 "2024_01_01-10h00m00.000s") AdminState.empty)).world.orgs ∧
    (Teardown adminPlane (Setup adminPlane (Machine.start
      (NewContext defaultConfig 3 "2024_01_01-10h00m00.000s") AdminState.empty))).world =
      AdminState.empty :=
  ⟨rfl, rfl,
    (setup_teardown_leaves_nothing
      (NewContext defaultConfig 3 "2024_01_01-10h00m00.000s") AdminState.empty rfl rfl).1.2.1,
    (setup_teardown_leaves_nothing
      (NewContext defaultConfig 3 "2024_01_01-10h00m00.000s") AdminState.empty rfl rfl).2.2.2.2
      rfl (by decide) (by decide) (by decide)⟩

/-- C8 as stated fails: with the keep-user flag set and both persistence flags false,
`Setup` creates the user `CATS-USER-3-2024_01_01-10h00m00.000s` on the empty remote
state and `Teardown` leaves it there. -/
theorem setup_teardown_residual_counterexample :
    (NewContext keepUserConfig 3 "2024_01_01-10h00m00.000s").isPersistentOrgAndSpace = false ∧
    (NewContext keepUserConfig 3 "2024_01_01-10h00m00.000s").isPersistentApp = false ∧
    (NewContext keepUserConfig 3 "2024_01_01-10h00m00.000s").regularUserUsername =
      "CATS-USER-3-2024_01_01-10h00m00.000s" ∧
    ["create-user", "CATS-USER-3-2024_01_01-10h00m00.000s", "meow"] ∈
      (Setup adminPlane (Machine.start
        (NewContext keepUserConfig 3 "2024_01_01-10h00m00.000s") AdminState.empty)).commands ∧
    (Teardown adminPlane (Setup adminPlane (Machine.start
      (NewContext keepUserConfig 3 "2024_01_01-10h00m00.000s") AdminState.empty))).world =
      { quotas := [], orgs := [], users := ["CATS-USER-3-2024_01_01-10h00m00.000s"] } := by
  decide

/-! ## SetRunawayQuota -/

/-- C10: each call of `SetRunawayQuota` issues the one command
`update-quota quotaDefinitionName -m 99999G -i=-1`, the same for any two contexts with
the same `quotaDefinitionName`, and leaves the context as it was; on the control plane
of named resources, where update-quota overwrites the limits it names, two calls leave
the same remote state as one call, from every remote state. -/
theorem SetRunawayQuota_idempotent {σ : Type} (plane : Plane σ) (m : Machine σ)
    (n : Machine AdminState) :
    (SetRunawayQuota plane m).commands = m.commands ++
      [["update-quota", m.context.quotaDefinitionName, "-m", "99999G", "-i=-1"]] ∧
    (SetRunawayQuota plane (SetRunawayQuota plane m)).commands = m.commands ++
      [["update-quota", m.context.quotaDefinitionName, "-m", "99999G", "-i=-1"],
       ["update-quota", m.context.quotaDefinitionName, "-m", "99999G", "-i=-1"]] ∧
    (∀ (c1 c2 : ConfiguredContext) (w1 w2 : σ),
      c1.quotaDefinitionName = c2.quotaDefinitionName →
      (SetRunawayQuota plane (Machine.start c1 w1)).commands =
        (SetRunawayQuota plane (Machine.start c2 w2)).commands) ∧
    (SetRunawayQuota plane m).context = m.context ∧
    (SetRunawayQuota adminPlane (SetRunawayQuota adminPlane n)).world =
      (SetRunawayQuota adminPlane n).world := by
  have hctx : ∀ {τ : Type} (pl : Plane τ) (k : Machine τ),
      (SetRunawayQuota pl k).context = k.context := by
    intro τ pl k
    simp [SetRunawayQuota, AsUser, Run]
  refine ⟨SetRunawayQuota_commands plane m, ?_, ?_, hctx plane m, ?_⟩
  · rw [SetRunawayQuota_commands, SetRunawayQuota_commands, hctx]
    simp
  · intro c1 c2 w1 w2 h
    rw [SetRunawayQuota_commands, SetRunawayQuota_commands, start_context, start_context, h]
    rfl
  · simp only [SetRunawayQuota, AsUser, Run, adminPlane, adminStep, applyFlags_runaway]
    simp [Function.comp_def]
    intro a b _
    split <;> simp_all

/-- Starting from a quota at the limits `Setup` gives it, `SetRunawayQuota` widens the
memory limit and lifts the instance limit, and leaves the other limits alone. -/
theorem SetRunawayQuota_widens :
    (SetRunawayQuota adminPlane (Setup adminPlane (Machine.start
      (NewContext defaultConfig 3 "2024_01_01-10h00m00.000s") AdminState.empty))).world.quotas =
      [("CATS-QUOTA-3-2024_01_01-10h00m00.000s",
        { memoryLimit := "99999G", instanceMemoryLimit := "-1", totalRoutes := "1000",
          totalServices := "100", nonBasicServicesAllowed := true })] := by
  decide

/-! ## Naming -/

theorem digitChar_spec (k : Nat) (h : k < 10) :
    (Nat.digitChar k).toNat - 48 = k ∧ Nat.digitChar k ≠ '-' := by
  interval_cases k <;> decide

/-- What `Nat.toDigitsCore` puts in front of its accumulator: digits only, and they
read back as the number. -/
theorem toDigitsCore_spec : ∀ (fuel n : Nat) (ds : List Char), n < fuel →
    ∃ L, Nat.toDigitsCore 10 fuel n ds = L ++ ds ∧ (∀ c ∈ L, c ≠ '-') ∧ digitsValue L = n := by
  intro fuel
  induction fuel with
  | zero => intro n ds h; omega
  | succ fuel ih =>
    intro n ds h
    have hd := digitChar_spec (n % 10) (Nat.mod_lt _ (by decide))
    simp only [Nat.toDigitsCore]
    split
    · rename_i h0
      refine ⟨[Nat.digitChar (n % 10)], rfl, ?_, ?_⟩
      · intro c hc
        rw [List.mem_singleton] at hc
        rw [hc]; exact hd.2
      · simp only [digitsValue, List.foldl_cons, List.foldl_nil, hd.1]
        omega
    · rename_i h0
      obtain ⟨L, hL, hc, hv⟩ := ih (n / 10) (Nat.digitChar (n % 10) :: ds) (by omega)
      refine ⟨L ++ [Nat.digitChar (n % 10)], by rw [hL]; simp, ?_, ?_⟩
      · intro c hmem
        rcases List.mem_append.1 hmem with h1 | h1
        · exact hc c h1
        · rw [List.mem_singleton] at h1
          rw [h1]; exact hd.2
      · unfold digitsValue at hv ⊢
        rw [List.foldl_append, hv]
        simp only [List.foldl_cons, List.foldl_nil, hd.1]
        omega

theorem repr_no_dash (n : Nat) : ∀ c ∈ (Nat.repr n).data, c ≠ '-' := by
  obtain ⟨L, hL, hc, _⟩ := toDigitsCore_spec (n + 1) n [] (Nat.lt_succ_self n)
  have h : (Nat.repr n).data = L := by
    show Nat.toDigitsCore 10 (n + 1) n [] = L
    rw [hL, List.append_nil]
  rw [h]; exact hc

theorem repr_value (n : Nat) : digitsValue (Nat.repr n).data = n := by
  obtain ⟨L, hL, _, hv⟩ := toDigitsCore_spec (n + 1) n [] (Nat.lt_succ_self n)
  have h : (Nat.repr n).data = L := by
    show Nat.toDigitsCore 10 (n + 1) n [] = L
    rw [hL, List.append_nil]
  rw [h]; exact hv

/-- Two texts without a dash, each followed by a dash and a rest, agree only when both
the texts and the rests agree. -/
theorem split_at_dash : ∀ (a b x y : List Char), (∀ c ∈ a, c ≠ '-') → (∀ c ∈ b, c ≠ '-') →
    a ++ '-' :: x = b ++ '-' :: y → a = b ∧ x = y := by
  intro a
  induction a with
  | nil =>
    intro b x y _ hb h
    cases b with
    | nil => simpa using h
    | cons c b =>
      simp only [List.nil_append, List.cons_append, List.cons.injEq] at h
      exact absurd h.1.symm (hb c (List.mem_cons_self _ _))
  | cons d a ih =>
    intro b x y ha hb h
    cases b with
    | nil =>
      simp only [List.nil_append, List.cons_append, List.cons.injEq] at h
      exact absurd h.1 (ha d (List.mem_cons_self _ _))
    | cons c b =>
      simp only [List.cons_append, List.cons.injEq] at h
      obtain ⟨h1, h2⟩ := ih b x y (fun e he => ha e (List.mem_cons_of_mem _ he))
        (fun e he => hb e (List.mem_cons_of_mem _ he)) h.2
      exact ⟨by rw [h.1, h1], h2⟩

/-- For worker numbers that are not negative, `Sprintf` with a fixed kind is injective
in the worker number and the time tag. -/
theorem Sprintf_injective (kind : String) (w1 w2 : Int) (t1 t2 : String)
    (h1 : 0 ≤ w1) (h2 : 0 ≤ w2) (h : Sprintf kind w1 t1 = Sprintf kind w2 t2) :
    w1 = w2 ∧ t1 = t2 := by
  obtain ⟨n1, rfl⟩ := Int.eq_ofNat_of_zero_le h1
  obtain ⟨n2, rfl⟩ := Int.eq_ofNat_of_zero_le h2
  have hd := congrArg String.data h
  simp only [Sprintf, formatInt, String.data_append, List.append_assoc] at hd
  have hd2 := List.append_cancel_left hd
  simp only [List.singleton_append] at hd2
  obtain ⟨ha, hb⟩ := split_at_dash _ _ _ _ (repr_no_dash n1) (repr_no_dash n2) hd2
  have hn : n1 = n2 := by
    have := congrArg digitsValue ha
    rwa [repr_value, repr_value] at this
  exact ⟨by rw [hn], String.ext hb⟩

/-- C7: for worker numbers `w1, w2 ≥ 0` and time tags `t1, t2` with
`(w1, t1) ≠ (w2, t2)`, and configurations without overrides (`UseExistingUser` and
`UseExistingOrgAndSpace` false), the two contexts built by `NewContext` differ in their
organization names, in their space names, in their quota names and in their user
names. -/
theorem generated_names_distinct (c1 c2 : Config) (w1 w2 : Int) (t1 t2 : String)
    (h1 : 0 ≤ w1) (h2 : 0 ≤ w2) (hne : (w1, t1) ≠ (w2, t2))
    (hU1 : c1.UseExistingUser = false) (hO1 : c1.UseExistingOrgAndSpace = false)
    (hU2 : c2.UseExistingUser = false) (hO2 : c2.UseExistingOrgAndSpace = false) :
    (NewContext c1 w1 t1).organizationName ≠ (NewContext c2 w2 t2).organizationName ∧
    (NewContext c1 w1 t1).spaceName ≠ (NewContext c2 w2 t2).spaceName ∧
    (NewContext c1 w1 t1).quotaDefinitionName ≠ (NewContext c2 w2 t2).quotaDefinitionName ∧
    (NewContext c1 w1 t1).regularUserUsername ≠ (NewContext c2 w2 t2).regularUserUsername := by
  have key : ∀ kind : String, Sprintf kind w1 t1 ≠ Sprintf kind w2 t2 := by
    intro kind h
    obtain ⟨hw, ht⟩ := Sprintf_injective kind w1 w2 t1 t2 h1 h2 h
    exact hne (by rw [hw, ht])
  simp only [NewContext, hU1, hO1, hU2, hO2, Bool.false_eq_true, if_false]
  exact ⟨key _, key _, key _, key _⟩

/-- C7 at workers 3 and 4 sharing the time tag `2024_01_01-10h00m00.000s`: the names
have the form `CATS-<KIND>-<worker>-<tag>` and differ. -/
theorem generated_names_distinct_witness :
    (NewContext defaultConfig 3 "2024_01_01-10h00m00.000s").organizationName =
      "CATS-ORG-3-2024_01_01-10h00m00.000s" ∧
    (NewContext defaultConfig 4 "2024_01_01-10h00m00.000s").organizationName =
      "CATS-ORG-4-2024_01_01-10h00m00.000s" ∧
    (NewContext defaultConfig 3 "2024_01_01-10h00m00.000s").organizationName ≠
      (NewContext defaultConfig 4 "2024_01_01-10h00m00.000s").organizationName :=
  ⟨by decide, by decide,
    (generated_names_distinct defaultConfig defaultConfig 3 4 "2024_01_01-10h00m00.000s"
      "2024_01_01-10h00m00.000s" (by decide) (by decide) (by decide) rfl rfl rfl rfl).1⟩

end Helpers
